import Mathlib

/-!
Shallow embedding of the Python example scripts of the `codewithphp`
documentation repository (chapter-11 CLI scripts, the Flask sentiment
server, the Redis queue worker and the OpenCV face-detection script),
together with theorems settling the specification claims about them.

JSON values exchanged on the CLI/HTTP boundary are modelled by the
inductive type `JVal`; Python dictionary/sequence operations that can
raise (`d['k']`, `d.get`, `x in d`, iteration) are modelled by
`Except PyErr` results carrying the Python exception class name and
message.  Numbers are modelled as rationals.  Each script's `main`
is a Lean function from its (already lexed) input — `none` for a
missing argv entry, `.error` for a JSON parse failure, `.ok v` for a
parsed value `v` — to the JSON document printed on stdout (`none` when
the script dies with an uncaught traceback instead of printing JSON)
and its exit code; argv numeric conversions (`float`/`int`) are
likewise modelled by their results.  The worker's loop locals
(`task`/`task_id`), which persist across iterations and which its
`except` handler consults, are threaded explicitly as a state record.
Calls into third-party ML/CV libraries (scikit-learn
transform/predict, OpenCV detectMultiScale, Redis) are modelled by
environment records holding the library's answer; batch operations of
the sklearn pipeline are modelled as elementwise maps of the
single-text pipeline, which is how the library computes them.
-/

/-- A JSON value as exchanged between PHP and the Python scripts.
Numbers are rationals; objects are ordered association lists, matching
Python dict insertion order. -/
inductive JVal where
  | null : JVal
  | bool : Bool → JVal
  | num : ℚ → JVal
  | str : String → JVal
  | arr : List JVal → JVal
  | obj : List (String × JVal) → JVal

/-- A Python exception: class name and message. -/
structure PyErr where
  ty : String
  msg : String

/-- What a CLI script leaves behind: the JSON document printed on
stdout (`none` when the script crashed with a traceback instead of
printing JSON) and the process exit code. -/
structure CliResult where
  stdout : Option JVal
  exitCode : Nat

/-- Python truthiness of a JSON value: `None`, `False`, `0`, `""`,
`[]` and `{}` are falsy, everything else truthy. -/
def JVal.truthy : JVal → Bool
  | .null => false
  | .bool b => b
  | .num q => q ≠ 0
  | .str s => s ≠ ""
  | .arr xs => ¬xs.isEmpty
  | .obj fs => ¬fs.isEmpty

/-- Field lookup in a JSON object (`none` for non-objects or missing
keys); used by the theorems to inspect results. -/
def JVal.lookup : JVal → String → Option JVal
  | .obj fs, k => List.lookup k fs
  | _, _ => none

/-- `d.get(k, dflt)`: defaulted lookup on dicts, `AttributeError` on
any other value (Python's `.get` exists only on dicts). -/
def pyGetD (v : JVal) (k : String) (dflt : JVal) : Except PyErr JVal :=
  match v with
  | .obj fs => .ok ((List.lookup k fs).getD dflt)
  | _ => .error ⟨"AttributeError", "object has no attribute get: " ++ k⟩

/-- `k in v` for a string `k`: key membership for dicts, element
membership for lists (Python `==` against a `str` holds only for equal
strings), substring test for strings, `TypeError` otherwise. -/
def pyContains (v : JVal) (k : String) : Except PyErr Bool :=
  match v with
  | .obj fs => .ok (List.lookup k fs).isSome
  | .arr xs => .ok (xs.any fun x => match x with | .str s => s = k | _ => false)
  | .str s => .ok ((s.toList.tails).any fun t => k.toList.isPrefixOf t)
  | _ => .error ⟨"TypeError", "argument of type is not iterable"⟩

/-- `v[k]` for a string key `k`: dict item lookup (`KeyError` when
missing), `TypeError` on sequences and scalars. -/
def pyIndex (v : JVal) (k : String) : Except PyErr JVal :=
  match v with
  | .obj fs =>
      match List.lookup k fs with
      | some x => .ok x
      | none => .error ⟨"KeyError", k⟩
  | _ => .error ⟨"TypeError", "indices must be integers"⟩

/-- Replace the value of the first binding of a key in an ordered
association list, else append a new binding at the end. -/
def updateKey (k : String) (x : JVal) : List (String × JVal) → List (String × JVal)
  | [] => [(k, x)]
  | (k₀, x₀) :: rest => if k₀ = k then (k, x) :: rest else (k₀, x₀) :: updateKey k x rest

/-- `v[k] = x` on a dict: replace the value of an existing key in
place, else append, matching Python dict insertion-order semantics.
Non-dicts are returned unchanged (the worker only assigns into parsed
task dicts). -/
def setKey (v : JVal) (k : String) (x : JVal) : JVal :=
  match v with
  | .obj fs => .obj (updateKey k x fs)
  | w => w

/-- Python `str()` of a JSON value, as used in f-strings.  Scalars are
rendered faithfully; container rendering is abbreviated (task ids in
the worker's `f"task:{task_id}"` are scalars). -/
def pyStr : JVal → String
  | .null => "None"
  | .bool b => if b then "True" else "False"
  | .num q => if q.den = 1 then toString q.num else toString q
  | .str s => s
  | .arr _ => "[...]"
  | .obj _ => "{...}"

/-- Python `text.strip()` emptiness test: `strip()` removes leading
and trailing whitespace, so the result is empty exactly when every
character is whitespace (vacuously, when the string is empty). -/
def blankStr (s : String) : Bool := s.toList.all Char.isWhitespace

/-! ## chapter-11/quick_sentiment.py -/

/-- The positive keyword list of `analyze_sentiment`. -/
def positive_words : List String :=
  ["amazing", "excellent", "great", "love", "recommend",
   "fantastic", "wonderful", "perfect", "best", "awesome"]

/-- The negative keyword list of `analyze_sentiment`. -/
def negative_words : List String :=
  ["terrible", "awful", "hate", "worst", "disappointing",
   "horrible", "bad", "poor", "waste", "useless"]

/-- Python `sub in hay` on strings: substring containment. -/
def containsSub (hay sub : String) : Bool :=
  (hay.toList.tails).any fun t => sub.toList.isPrefixOf t

/-- `sum(1 for word in words if word in text_lower)`. -/
def keywordCount (words : List String) (textLower : String) : Nat :=
  words.countP fun w => containsSub textLower w

/-- `analyze_sentiment(text)` from quick_sentiment.py: keyword-count
sentiment with a confidence score. -/
def analyze_sentiment (text : String) : JVal :=
  let textLower := text.toLower
  let positiveCount := keywordCount positive_words textLower
  let negativeCount := keywordCount negative_words textLower
  if positiveCount > negativeCount then
    .obj [("sentiment", .str "positive"),
          ("confidence", .num (min (85/100 + (positiveCount : ℚ) * (5/100)) (99/100)))]
  else if negativeCount > positiveCount then
    .obj [("sentiment", .str "negative"),
          ("confidence", .num (min (85/100 + (negativeCount : ℚ) * (5/100)) (99/100)))]
  else
    .obj [("sentiment", .str "neutral"), ("confidence", .num (60/100))]

/-- A single-key error document `{"error": msg}`. -/
def errDoc (msg : String) : JVal := .obj [("error", .str msg)]

/-- The error document `{"error": msg, "type": ty}` printed by the
scripts that tag the exception class. -/
def errDocTyped (e : PyErr) : JVal :=
  .obj [("error", .str e.msg), ("type", .str e.ty)]

/-- `main()` of quick_sentiment.py.  The input is `none` when no argv
entry was given, `.error m` when `json.loads` fails with message `m`,
and `.ok v` for the parsed value. -/
def quick_sentiment_main (input : Option (Except String JVal)) : CliResult :=
  match input with
  | none => ⟨some (errDoc "No data provided"), 1⟩
  | some (.error m) => ⟨some (errDoc ("Invalid JSON: " ++ m)), 1⟩
  | some (.ok v) =>
      match pyContains v "text" with
      | .error e => ⟨some (errDoc e.msg), 1⟩
      | .ok false => ⟨some (errDoc "Missing \x22text\x22 field"), 1⟩
      | .ok true =>
          match pyIndex v "text" with
          | .error e => ⟨some (errDoc e.msg), 1⟩
          | .ok textV =>
              if ¬textV.truthy then ⟨some (errDoc "Text cannot be empty"), 1⟩
              else
                match textV with
                | .str s =>
                    if blankStr s then ⟨some (errDoc "Text cannot be empty"), 1⟩
                    else ⟨some (analyze_sentiment s), 0⟩
                | _ => ⟨some (errDoc "object has no attribute strip"), 1⟩

/-! ## chapter-11/01-simple-shell/hello.py -/

/-- `main()` of hello.py.  Only `json.JSONDecodeError` is caught: a
parsed non-dict input raises an uncaught `AttributeError` at
`input_data.get`, printing a traceback (no JSON) and exiting 1. -/
def hello_main (input : Option (Except String JVal)) : CliResult :=
  match input with
  | none => ⟨some (errDoc "No data provided"), 1⟩
  | some (.error m) => ⟨some (errDoc ("Invalid JSON: " ++ m)), 1⟩
  | some (.ok v) =>
      match v with
      | .obj fs =>
          let name := (List.lookup "name" fs).getD (.str "World")
          ⟨some (.obj [("greeting", .str ("Hello, " ++ pyStr name ++ "!")),
                       ("processed_by", .str "Python 3"),
                       ("input_received", .obj fs)]), 0⟩
      | _ => ⟨none, 1⟩

/-! ## chapter-11/02-data-passing/process.py -/

/-- `p.get('amount', 0)` summed by `sum(...)`: numbers stand for
themselves, Python bools are the integers 0/1, any other value makes
the sum raise `TypeError`. -/
def amountOf (p : JVal) : Except PyErr ℚ :=
  match pyGetD p "amount" (.num 0) with
  | .error e => .error e
  | .ok (.num q) => .ok q
  | .ok (.bool b) => .ok (if b then 1 else 0)
  | .ok _ => .error ⟨"TypeError", "unsupported operand type for +"⟩

/-- `sum(p.get('amount', 0) for p in purchases)`. -/
def totalSpent : List JVal → Except PyErr ℚ
  | [] => .ok 0
  | p :: ps =>
      match amountOf p with
      | .error e => .error e
      | .ok q =>
          match totalSpent ps with
          | .error e => .error e
          | .ok rest => .ok (q + rest)

/-- Iterating `purchases`: a JSON array iterates its elements; an
empty dict or empty string iterates nothing (so the sum is 0, like the
empty list); a non-empty dict or string yields non-dict items whose
`.get` raises `AttributeError`; scalars are not iterable. -/
def iterPurchases (v : JVal) : Except PyErr (List JVal) :=
  match v with
  | .arr xs => .ok xs
  | .obj [] => .ok []
  | .obj _ => .error ⟨"AttributeError", "object has no attribute get: amount"⟩
  | .str s => if s = "" then .ok [] else .error ⟨"AttributeError", "object has no attribute get: amount"⟩
  | _ => .error ⟨"TypeError", "object is not iterable"⟩

/-- The segment classification of `process_user_data`. -/
def segmentOf (total : ℚ) (numPurchases : Nat) : String :=
  if total > 1000 ∧ numPurchases > 10 then "VIP"
  else if total > 500 then "Regular"
  else "New"

/-- `generate_recommendations(segment)` from process.py. -/
def generate_recommendations (segment : String) : List String :=
  if segment = "VIP" then ["Premium Bundle", "Exclusive Access", "Priority Support"]
  else if segment = "Regular" then ["Popular Items", "Seasonal Deals", "Member Benefits"]
  else if segment = "New" then ["Starter Pack", "Welcome Offer", "Getting Started Guide"]
  else []

/-- Python `round(x, 2)` modelled as round-half-up to two decimals
(Python rounds the nearest float, half to even; the difference is
immaterial to every claim, none of which reads the metrics). -/
def round2 (q : ℚ) : ℚ := (⌊q * 100 + 1/2⌋ : ℚ) / 100

/-- `process_user_data(user)` from process.py. -/
def process_user_data (user : JVal) : Except PyErr JVal :=
  match pyGetD user "name" (.str "Unknown") with
  | .error e => .error e
  | .ok name =>
  match pyGetD user "age" (.num 0) with
  | .error e => .error e
  | .ok _age =>
  match pyGetD user "purchases" (.arr []) with
  | .error e => .error e
  | .ok purchasesV =>
  match iterPurchases purchasesV with
  | .error e => .error e
  | .ok ps =>
  match totalSpent ps with
  | .error e => .error e
  | .ok total =>
  let numPurchases := ps.length
  let avgPurchase : ℚ := if numPurchases ≠ 0 then total / numPurchases else 0
  let segment := segmentOf total numPurchases
  match pyGetD user "id" .null with
  | .error e => .error e
  | .ok userId =>
  .ok (.obj [("user_id", userId),
             ("name", name),
             ("segment", .str segment),
             ("metrics", .obj [("total_purchases", .num numPurchases),
                               ("total_spent", .num (round2 total)),
                               ("avg_purchase_value", .num (round2 avgPurchase))]),
             ("recommendations", .arr ((generate_recommendations segment).map .str))])

/-- `[process_user_data(user) for user in input_data]`. -/
def processBatch : List JVal → Except PyErr (List JVal)
  | [] => .ok []
  | u :: us =>
      match process_user_data u with
      | .error e => .error e
      | .ok r =>
          match processBatch us with
          | .error e => .error e
          | .ok rs => .ok (r :: rs)

/-- `main()` of process.py: dispatch on dict vs list input, one
catch-all `except` printing `{"error", "type"}` and exiting 1. -/
def process_main (input : Option (Except String JVal)) : CliResult :=
  match input with
  | none => ⟨some (errDocTyped ⟨"ValueError", "No input data provided"⟩), 1⟩
  | some (.error m) => ⟨some (errDocTyped ⟨"JSONDecodeError", m⟩), 1⟩
  | some (.ok v) =>
      match v with
      | .obj fs =>
          match process_user_data (.obj fs) with
          | .ok r => ⟨some r, 0⟩
          | .error e => ⟨some (errDocTyped e), 1⟩
      | .arr us =>
          match processBatch us with
          | .ok rs => ⟨some (.arr rs), 0⟩
          | .error e => ⟨some (errDocTyped e), 1⟩
      | _ => ⟨some (errDocTyped ⟨"ValueError", "Input must be object or array"⟩), 1⟩

/-! ## chapter-11/03-sentiment-analysis/predict.py -/

/-- The answer of the scikit-learn sentiment pipeline for one text:
the predicted class, the maximal class probability, and the per-class
probability table. -/
structure SkPred where
  sentiment : String
  confidence : ℚ
  allScores : List (String × ℚ)

/-- The environment of predict.py: whether the model files exist on
disk, and the loaded pipeline's answer for a text (`.error` when the
library raises during transform/predict). -/
structure PredictEnv where
  modelExists : Bool
  pipe : String → Except PyErr SkPred

/-- The success document of `predict_sentiment`. -/
def predDoc (text : String) (p : SkPred) : JVal :=
  .obj [("text", .str text),
        ("sentiment", .str p.sentiment),
        ("confidence", .num p.confidence),
        ("all_scores", .obj (p.allScores.map fun sc => (sc.1, JVal.num sc.2)))]

/-- `main()` of predict.py.  Besides the printed result and exit code
it records whether `load_model` was reached and whether the pipeline
(`vectorizer.transform`/`classifier.predict`) was invoked, so the
validate-before-model-call claims can be stated. -/
def predict_main (input : Option (Except String JVal)) (env : PredictEnv) :
    CliResult × Bool × Bool :=
  match input with
  | none => (⟨some (errDocTyped ⟨"ValueError", "No input data provided"⟩), 1⟩, false, false)
  | some (.error m) => (⟨some (errDocTyped ⟨"JSONDecodeError", m⟩), 1⟩, false, false)
  | some (.ok v) =>
      match pyGetD v "text" (.str "") with
      | .error e => (⟨some (errDocTyped e), 1⟩, false, false)
      | .ok textV =>
          if ¬textV.truthy then
            (⟨some (errDocTyped ⟨"ValueError", "Text field is required"⟩), 1⟩, false, false)
          else if ¬env.modelExists then
            (⟨some (errDocTyped ⟨"FileNotFoundError",
              "Model files not found in models. Run train_model.py first."⟩), 1⟩, true, false)
          else
            match textV with
            | .str s =>
                match env.pipe s with
                | .ok p => (⟨some (predDoc s p), 0⟩, true, true)
                | .error e => (⟨some (errDocTyped e), 1⟩, true, true)
            | _ => (⟨some (errDocTyped ⟨"TypeError", "transform expects strings"⟩), 1⟩, true, true)

/-! ## chapter-11/04-rest-api-example/flask_server.py -/

/-- An HTTP response: status code and JSON body. -/
structure HttpResp where
  status : Nat
  body : JVal

/-- The environment of the Flask server: the loaded sklearn pipeline's
answer for one text (`.error` when transform/predict raises).  Batch
requests run the same pipeline text by text, which is how the sklearn
vectorizer/classifier compute a batch (row-wise). -/
structure FlaskEnv where
  pipe : String → Except PyErr SkPred

/-- `vectorizer.transform(texts)` / `classifier.predict` on a batch:
elementwise application of the pipeline; a non-string item makes the
vectorizer raise. -/
def batchPipe (env : FlaskEnv) : List JVal → Except PyErr (List (String × SkPred))
  | [] => .ok []
  | .str s :: rest =>
      match env.pipe s with
      | .error e => .error e
      | .ok p =>
          match batchPipe env rest with
          | .error e => .error e
          | .ok ps => .ok ((s, p) :: ps)
  | _ :: _ => .error ⟨"ValueError", "could not convert value to string"⟩

/-- The 200 body of `POST /predict`. -/
def predictBody (text : String) (p : SkPred) : JVal := predDoc text p

/-- One entry of the `predictions` array of `POST /predict/batch`. -/
def batchItemBody (text : String) (p : SkPred) : JVal :=
  .obj [("text", .str text), ("sentiment", .str p.sentiment), ("confidence", .num p.confidence)]

/-- The `predict` view function of flask_server.py.  The request body
is `.error` when `request.get_json()` raises on a malformed body
(caught by the view's catch-all, hence 500).  The boolean records
whether `vectorizer.transform`/`classifier.predict` were invoked. -/
def predictRoute (reqBody : Except String JVal) (env : FlaskEnv) : HttpResp × Bool :=
  match reqBody with
  | .error m => (⟨500, errDoc m⟩, false)
  | .ok data =>
      if ¬data.truthy then (⟨400, errDoc "Missing \x22text\x22 field"⟩, false)
      else
        match pyContains data "text" with
        | .error e => (⟨500, errDoc e.msg⟩, false)
        | .ok false => (⟨400, errDoc "Missing \x22text\x22 field"⟩, false)
        | .ok true =>
            match pyIndex data "text" with
            | .error e => (⟨500, errDoc e.msg⟩, false)
            | .ok textV =>
                if ¬textV.truthy then (⟨400, errDoc "Text cannot be empty"⟩, false)
                else
                  match textV with
                  | .str s =>
                      if blankStr s then (⟨400, errDoc "Text cannot be empty"⟩, false)
                      else
                        match env.pipe s with
                        | .ok p => (⟨200, predictBody s p⟩, true)
                        | .error e => (⟨500, errDoc e.msg⟩, true)
                  | _ => (⟨500, errDoc "object has no attribute strip"⟩, false)

/-- The `predict_batch` view function of flask_server.py. -/
def predictBatchRoute (reqBody : Except String JVal) (env : FlaskEnv) : HttpResp × Bool :=
  match reqBody with
  | .error m => (⟨500, errDoc m⟩, false)
  | .ok data =>
      if ¬data.truthy then (⟨400, errDoc "Missing \x22texts\x22 array"⟩, false)
      else
        match pyContains data "texts" with
        | .error e => (⟨500, errDoc e.msg⟩, false)
        | .ok false => (⟨400, errDoc "Missing \x22texts\x22 array"⟩, false)
        | .ok true =>
            match pyIndex data "texts" with
            | .error e => (⟨500, errDoc e.msg⟩, false)
            | .ok textsV =>
                match textsV with
                | .arr xs =>
                    match batchPipe env xs with
                    | .ok ps =>
                        (⟨200, .obj [("predictions",
                            .arr (ps.map fun tp => batchItemBody tp.1 tp.2))]⟩, true)
                    | .error e => (⟨500, errDoc e.msg⟩, true)
                | _ => (⟨400, errDoc "\x22texts\x22 must be an array"⟩, false)

/-! ## chapter-11/05-production-patterns/worker.py -/

/-- A write the worker issues against the queue store.  `setex` is a
keyed write with an expiry in seconds; `push` re-enqueues a value onto
a queue (the worker never emits one — the constructor exists so that
"no requeue" is expressible about the emitted operation list). -/
inductive RedisOp where
  | setex : String → Nat → JVal → RedisOp
  | push : String → JVal → RedisOp

/-- Whether a store operation re-enqueues onto a queue. -/
def RedisOp.isPush : RedisOp → Bool
  | .push _ _ => true
  | _ => false

/-- The worker's environment: whether the sentiment model files were
found at startup, and the loaded pipeline's answer for a text. -/
structure WorkerEnv where
  modelLoaded : Bool
  pipe : String → Except PyErr (String × ℚ)

/-- `process_sentiment_analysis(data)` from worker.py: real prediction
when the model is loaded, otherwise a fixed simulated answer. -/
def process_sentiment_analysis (data : JVal) (env : WorkerEnv) : Except PyErr JVal :=
  match pyGetD data "text" (.str "") with
  | .error e => .error e
  | .ok textV =>
      if env.modelLoaded then
        match textV with
        | .str s =>
            match env.pipe s with
            | .error e => .error e
            | .ok sc =>
                .ok (.obj [("text", .str s), ("sentiment", .str sc.1), ("confidence", .num sc.2)])
        | _ => .error ⟨"ValueError", "could not convert value to string"⟩
      else
        .ok (.obj [("text", textV), ("sentiment", .str "positive"),
                   ("confidence", .num (85/100)),
                   ("note", .str "Simulated (model not loaded)")])

/-- Python `v == s` against a string literal: true exactly for the
equal string (no cross-type equalities involve `str`). -/
def jvalEqStr (v : JVal) (s : String) : Bool :=
  match v with
  | .str t => t = s
  | _ => false

/-- `process_task(task)` from worker.py: dispatch on `task['type']`. -/
def process_task (task : JVal) (env : WorkerEnv) : Except PyErr JVal :=
  match pyIndex task "type" with
  | .error e => .error e
  | .ok taskType =>
      match pyIndex task "data" with
      | .error e => .error e
      | .ok data =>
          if jvalEqStr taskType "sentiment_analysis" then
            process_sentiment_analysis data env
          else if jvalEqStr taskType "image_classification" then
            .ok (.obj [("label", .str "cat"), ("confidence", .num (92/100))])
          else
            .error ⟨"ValueError", "Unknown task type: " ++ pyStr taskType⟩

/-- The locals of the worker loop that the `except` handler consults
and that persist across iterations: the latest bindings of `task_id`
and of `task` (`none` while the name is still unbound).  `task` is
assigned at `json.loads` before `task_id` is, so whenever `taskId` is
bound `taskVar` is too. -/
structure WorkerState where
  taskId : Option JVal
  taskVar : Option JVal

/-- One iteration of the worker's `while True` loop: from the incoming
locals and the popped queue entry (`.error m` when `json.loads` raises
with message `m`, `.ok v` for the parsed task) to the list of store
writes it issues, in order, and the locals left for the next
iteration.  `now1` is the clock at the `started_at` write, `now2` at
the `completed_at` write.  The `except` handler runs `if 'task_id' in
locals()`, and `task_id`/`task` persist across iterations: a parse
failure leaves `task` at the previous task's (already mutated) dict
and writes it back as `failed` under the previous id's key; a parsed
task without an `id` raises `KeyError` after `task` was rebound, so
the handler writes the new record as `failed` under the stale
`task:<previous id>` key; a task with an `id` but no `type` raises in
the received-task log line, before the `processing` write, and the
handler writes only the `failed` record under the new id's key. -/
def workerStep (st : WorkerState) (popped : Except String JVal) (now1 now2 : Nat)
    (env : WorkerEnv) : List RedisOp × WorkerState :=
  match popped with
  | .error m =>
      match st.taskId, st.taskVar with
      | some idV, some tv =>
          let failed := setKey (setKey tv "status" (.str "failed")) "error" (.str m)
          ([.setex ("task:" ++ pyStr idV) 3600 failed], ⟨some idV, some failed⟩)
      | _, _ => ([], st)
  | .ok task =>
      match pyIndex task "id" with
      | .error e =>
          match st.taskId with
          | some idV =>
              let failed := setKey (setKey task "status" (.str "failed")) "error" (.str e.msg)
              ([.setex ("task:" ++ pyStr idV) 3600 failed], ⟨some idV, some failed⟩)
          | none => ([], ⟨none, some task⟩)
      | .ok idV =>
          let taskKey := "task:" ++ pyStr idV
          match pyIndex task "type" with
          | .error e =>
              let failed := setKey (setKey task "status" (.str "failed")) "error" (.str e.msg)
              ([.setex taskKey 3600 failed], ⟨some idV, some failed⟩)
          | .ok _ =>
              let processing :=
                setKey (setKey task "status" (.str "processing")) "started_at" (.num now1)
              match process_task task env with
              | .ok result =>
                  let completed :=
                    setKey (setKey processing "status" (.str "completed")) "completed_at"
                      (.num now2)
                  ([.setex taskKey 3600 processing,
                    .setex ("result:" ++ pyStr idV) 3600 result,
                    .setex taskKey 3600 completed], ⟨some idV, some completed⟩)
              | .error e =>
                  let failed :=
                    setKey (setKey processing "status" (.str "failed")) "error" (.str e.msg)
                  ([.setex taskKey 3600 processing, .setex taskKey 3600 failed],
                   ⟨some idV, some failed⟩)

/-- The values written under one key, in order, by a list of store
operations; used to state how the worker mutates a task record. -/
def taskWrites (ops : List RedisOp) (key : String) : List JVal :=
  ops.filterMap fun op =>
    match op with
    | .setex k _ v => if k = key then some v else none
    | .push _ _ => none

/-! ## chapter-18/detect_opencv.py -/

/-- The OpenCV environment of one run: whether `cv2.imread` could load
the image, whether the Haar cascade file loaded, and the boxes
`detectMultiScale` returned. -/
structure CvEnv where
  imageLoaded : Bool
  cascadeLoaded : Bool
  faces : List (Int × Int × Int × Int)

/-- One entry of the `detections` list of `detect_faces`. -/
def detectionDoc (box : Int × Int × Int × Int) : JVal :=
  .obj [("class", .str "face"),
        ("confidence", .num (85/100)),
        ("bbox", .obj [("x", .num box.1), ("y", .num box.2.1),
                       ("width", .num box.2.2.1), ("height", .num box.2.2.2)])]

/-- `detect_faces(image_path, ...)` from detect_opencv.py.  The
`scale_factor`/`min_neighbors` arguments only parameterize
`detectMultiScale`, whose answer the environment holds. -/
def detect_faces (image_path : String) (env : CvEnv) : JVal :=
  if ¬env.imageLoaded then
    .obj [("success", .bool false), ("error", .str ("Failed to load image: " ++ image_path))]
  else if ¬env.cascadeLoaded then
    .obj [("success", .bool false), ("error", .str "Failed to load Haar Cascade classifier")]
  else
    .obj [("success", .bool true),
          ("detections", .arr (env.faces.map detectionDoc)),
          ("count", .num env.faces.length),
          ("image_path", .str image_path),
          ("method", .str "OpenCV Haar Cascades")]

/-- Whether an optional argv conversion raised: `none` when the
argument is absent, `.ok` when the conversion succeeded, `.error`
when `float`/`int` raised `ValueError`. -/
def convCrashes {α : Type} : Option (Except String α) → Bool
  | some (.error _) => true
  | _ => false

/-- The `__main__` block of detect_opencv.py.  `imagePath?` is argv[1]
when present; `scaleArg` and `neighborsArg` are the results of
`float(sys.argv[2])` and `int(sys.argv[3])` when those arguments are
present (`.error` when the conversion raises `ValueError`).  Without
an image path: usage error, exit 1.  A failed conversion is caught by
no handler — the script dies with a traceback (no JSON on stdout) and
exit code 1, `float(sys.argv[2])` being evaluated first.  Otherwise
the converted values only parameterize `detectMultiScale`, whose
answer `env` holds, and the script prints the `detect_faces` result
and falls off the end — exit code 0 even when the result reports a
failure. -/
def detect_opencv_main (imagePath? : Option String) (scaleArg : Option (Except String ℚ))
    (neighborsArg : Option (Except String Int)) (env : CvEnv) : CliResult :=
  match imagePath? with
  | none => ⟨some (.obj [("success", .bool false),
      ("error", .str "Usage: python3 detect_opencv.py <image_path> [scale_factor] [min_neighbors]")]), 1⟩
  | some imagePath =>
      if convCrashes scaleArg then ⟨none, 1⟩
      else if convCrashes neighborsArg then ⟨none, 1⟩
      else ⟨some (detect_faces imagePath env), 0⟩

/-! ## Helper lemmas -/

/-- Looking up the key just written by `updateKey` yields the new
value. -/
theorem lookup_updateKey_self (k : String) (x : JVal) (fs : List (String × JVal)) :
    List.lookup k (updateKey k x fs) = some x := by
  induction fs with
  | nil => simp [updateKey, List.lookup]
  | cons hd tl ih =>
      obtain ⟨k₀, x₀⟩ := hd
      by_cases hk : k₀ = k
      · simp [updateKey, hk, List.lookup]
      · simp only [updateKey, if_neg hk, List.lookup]
        have : (k == k₀) = false := by
          simp [beq_iff_eq]
          exact fun hh => hk hh.symm
        simp [this, ih]

/-- Looking up a different key after `updateKey` is unchanged. -/
theorem lookup_updateKey_ne (k k' : String) (x : JVal) (fs : List (String × JVal))
    (h : k' ≠ k) : List.lookup k' (updateKey k x fs) = List.lookup k' fs := by
  induction fs with
  | nil =>
      have hb : (k' == k) = false := beq_eq_false_iff_ne.mpr h
      simp [updateKey, List.lookup, hb]
  | cons hd tl ih =>
      obtain ⟨k₀, x₀⟩ := hd
      by_cases hk : k₀ = k
      · subst hk
        have hb : (k' == k₀) = false := beq_eq_false_iff_ne.mpr h
        simp [updateKey, List.lookup, hb]
      · simp only [updateKey, if_neg hk, List.lookup]
        cases hkk : (k' == k₀) <;> simp [hkk, ih]

/-- `setKey` on an object: lookup of the written key. -/
theorem lookup_setKey_self (fs : List (String × JVal)) (k : String) (x : JVal) :
    (setKey (.obj fs) k x).lookup k = some x := by
  simp [setKey, JVal.lookup, lookup_updateKey_self]

/-- `setKey` on an object: lookup of another key is unchanged. -/
theorem lookup_setKey_ne (fs : List (String × JVal)) (k k' : String) (x : JVal)
    (h : k' ≠ k) : (setKey (.obj fs) k x).lookup k' = (JVal.obj fs).lookup k' := by
  simp [setKey, JVal.lookup, lookup_updateKey_ne _ _ _ _ h]

/-- `setKey` keeps objects objects. -/
theorem setKey_obj (fs : List (String × JVal)) (k : String) (x : JVal) :
    setKey (.obj fs) k x = .obj (updateKey k x fs) := rfl

/-- The stdout document of a `CliResult` is a JSON object with an
`error` key. -/
def errKeyed (o : Option JVal) : Prop :=
  ∃ j, o = some j ∧ (j.lookup "error").isSome = true

/-- `{"error": msg}` is error-keyed. -/
theorem errKeyed_errDoc (msg : String) : errKeyed (some (errDoc msg)) :=
  ⟨errDoc msg, rfl, rfl⟩

/-- `{"error": msg, "type": ty}` is error-keyed. -/
theorem errKeyed_errDocTyped (e : PyErr) : errKeyed (some (errDocTyped e)) :=
  ⟨errDocTyped e, rfl, rfl⟩

/-! ## Claim theorems -/

/-- C10: on every successful run of detect_opencv.py's `detect_faces`
(image loaded, cascade loaded), every entry of `detections` has class
`face` and the constant confidence 0.85, and `count` equals the length
of the `detections` list. -/
theorem c10_detect_faces_constant_confidence (path : String) (env : CvEnv)
    (himg : env.imageLoaded = true) (hcas : env.cascadeLoaded = true) :
    ∃ ds : List JVal,
      (detect_faces path env).lookup "success" = some (.bool true) ∧
      (detect_faces path env).lookup "detections" = some (.arr ds) ∧
      (detect_faces path env).lookup "count" = some (.num ds.length) ∧
      ∀ d ∈ ds, d.lookup "class" = some (.str "face") ∧
        d.lookup "confidence" = some (.num (85/100)) := by
  refine ⟨env.faces.map detectionDoc, ?_, ?_, ?_, ?_⟩
  · simp [detect_faces, himg, hcas, JVal.lookup, List.lookup]
  · simp [detect_faces, himg, hcas, JVal.lookup, List.lookup]
  · simp [detect_faces, himg, hcas, JVal.lookup, List.lookup]
  · intro d hd
    simp only [List.mem_map] at hd
    obtain ⟨box, _, rfl⟩ := hd
    exact ⟨rfl, rfl⟩

/-- Witness for C10: a run that loaded the image and cascade and
detected one face. -/
theorem c10_detect_faces_constant_confidence_witness :
    (⟨true, true, [(1, 2, 3, 4)]⟩ : CvEnv).imageLoaded = true ∧
    (⟨true, true, [(1, 2, 3, 4)]⟩ : CvEnv).cascadeLoaded = true ∧
    ∃ ds : List JVal,
      (detect_faces "photo.jpg" ⟨true, true, [(1, 2, 3, 4)]⟩).lookup "success" =
        some (.bool true) ∧
      (detect_faces "photo.jpg" ⟨true, true, [(1, 2, 3, 4)]⟩).lookup "detections" =
        some (.arr ds) ∧
      (detect_faces "photo.jpg" ⟨true, true, [(1, 2, 3, 4)]⟩).lookup "count" =
        some (.num ds.length) ∧
      ∀ d ∈ ds, d.lookup "class" = some (.str "face") ∧
        d.lookup "confidence" = some (.num (85/100)) :=
  ⟨rfl, rfl,
   c10_detect_faces_constant_confidence "photo.jpg" ⟨true, true, [(1, 2, 3, 4)]⟩ rfl rfl⟩

/-- C8: for every non-empty text, `analyze_sentiment` answers
`positive` exactly when the count of positive keywords occurring in
the lowercased text exceeds the count of negative keywords, `negative`
when the negative count exceeds the positive count, and `neutral` when
they are equal; the confidence is always in [0.60, 0.99], equal to
0.60 for `neutral` and `min(0.85 + 0.05*count, 0.99)` for the winning
count otherwise. -/
theorem c8_analyze_sentiment_spec (t : String) (ht : t ≠ "") :
    ((analyze_sentiment t).lookup "sentiment" = some (.str "positive") ↔
       keywordCount positive_words t.toLower > keywordCount negative_words t.toLower) ∧
    ((analyze_sentiment t).lookup "sentiment" = some (.str "negative") ↔
       keywordCount negative_words t.toLower > keywordCount positive_words t.toLower) ∧
    ((analyze_sentiment t).lookup "sentiment" = some (.str "neutral") ↔
       keywordCount positive_words t.toLower = keywordCount negative_words t.toLower) ∧
    ∃ q : ℚ, (analyze_sentiment t).lookup "confidence" = some (.num q) ∧
      60/100 ≤ q ∧ q ≤ 99/100 ∧
      (keywordCount positive_words t.toLower = keywordCount negative_words t.toLower →
        q = 60/100) ∧
      (keywordCount positive_words t.toLower > keywordCount negative_words t.toLower →
        q = min (85/100 + (keywordCount positive_words t.toLower : ℚ) * (5/100)) (99/100)) ∧
      (keywordCount negative_words t.toLower > keywordCount positive_words t.toLower →
        q = min (85/100 + (keywordCount negative_words t.toLower : ℚ) * (5/100)) (99/100)) := by
  set p := keywordCount positive_words t.toLower with hp
  set n := keywordCount negative_words t.toLower with hn
  have hb : ∀ m : Nat, (60 : ℚ)/100 ≤ min (85/100 + (m : ℚ) * (5/100)) (99/100) := by
    intro m
    refine le_min ?_ (by norm_num)
    have : (0 : ℚ) ≤ (m : ℚ) * (5/100) := by positivity
    linarith
  rcases Nat.lt_trichotomy p n with hlt | heq | hgt
  · have h1 : ¬(p > n) := by omega
    have h2 : n > p := hlt
    refine ⟨?_, ?_, ?_, ?_⟩
    · simp [analyze_sentiment, ← hp, ← hn, h1, h2, JVal.lookup, List.lookup]
    · simp [analyze_sentiment, ← hp, ← hn, h1, h2, JVal.lookup, List.lookup]
    · simp [analyze_sentiment, ← hp, ← hn, h1, h2, JVal.lookup, List.lookup]
      omega
    · refine ⟨min (85/100 + (n : ℚ) * (5/100)) (99/100), ?_, hb n, min_le_right _ _,
        ?_, ?_, ?_⟩
      · simp [analyze_sentiment, ← hp, ← hn, h1, h2, JVal.lookup, List.lookup]
      · omega
      · omega
      · intro _; rfl
  · have h1 : ¬(p > n) := by omega
    have h2 : ¬(n > p) := by omega
    refine ⟨?_, ?_, ?_, ?_⟩
    · simp [analyze_sentiment, ← hp, ← hn, h1, h2, JVal.lookup, List.lookup]
    · simp [analyze_sentiment, ← hp, ← hn, h1, h2, JVal.lookup, List.lookup]
    · simp [analyze_sentiment, ← hp, ← hn, h1, h2, JVal.lookup, List.lookup]
      omega
    · refine ⟨60/100, ?_, le_refl _, by norm_num, fun _ => rfl, ?_, ?_⟩
      · simp [analyze_sentiment, ← hp, ← hn, h1, h2, JVal.lookup, List.lookup]
      · omega
      · omega
  · have h1 : p > n := hgt
    refine ⟨?_, ?_, ?_, ?_⟩
    · simp [analyze_sentiment, ← hp, ← hn, h1, JVal.lookup, List.lookup]
    · simp [analyze_sentiment, ← hp, ← hn, h1, JVal.lookup, List.lookup]
      omega
    · simp [analyze_sentiment, ← hp, ← hn, h1, JVal.lookup, List.lookup]
      omega
    · refine ⟨min (85/100 + (p : ℚ) * (5/100)) (99/100), ?_, hb p, min_le_right _ _,
        ?_, fun _ => rfl, ?_⟩
      · simp [analyze_sentiment, ← hp, ← hn, h1, JVal.lookup, List.lookup]
      · omega
      · omega

/-- Witness for C8 at the concrete text `great`. -/
theorem c8_analyze_sentiment_spec_witness :
    ("great" : String) ≠ "" ∧
    (((analyze_sentiment "great").lookup "sentiment" = some (.str "positive") ↔
        keywordCount positive_words ("great" : String).toLower >
          keywordCount negative_words ("great" : String).toLower) ∧
     ((analyze_sentiment "great").lookup "sentiment" = some (.str "negative") ↔
        keywordCount negative_words ("great" : String).toLower >
          keywordCount positive_words ("great" : String).toLower) ∧
     ((analyze_sentiment "great").lookup "sentiment" = some (.str "neutral") ↔
        keywordCount positive_words ("great" : String).toLower =
          keywordCount negative_words ("great" : String).toLower) ∧
     ∃ q : ℚ, (analyze_sentiment "great").lookup "confidence" = some (.num q) ∧
       60/100 ≤ q ∧ q ≤ 99/100 ∧
       (keywordCount positive_words ("great" : String).toLower =
          keywordCount negative_words ("great" : String).toLower → q = 60/100) ∧
       (keywordCount positive_words ("great" : String).toLower >
          keywordCount negative_words ("great" : String).toLower →
         q = min (85/100 + (keywordCount positive_words ("great" : String).toLower : ℚ) *
           (5/100)) (99/100)) ∧
       (keywordCount negative_words ("great" : String).toLower >
          keywordCount positive_words ("great" : String).toLower →
         q = min (85/100 + (keywordCount negative_words ("great" : String).toLower : ℚ) *
           (5/100)) (99/100))) :=
  ⟨by decide, c8_analyze_sentiment_spec "great" (by decide)⟩

/-- The segment classification of process.py, characterised: `VIP`
exactly when total spent exceeds 1000 and purchases exceed 10,
`Regular` exactly when not VIP and total exceeds 500, `New` otherwise;
and each segment's recommendation list has three entries. -/
theorem segmentOf_cases (total : ℚ) (n : Nat) :
    (segmentOf total n = "VIP" ↔ total > 1000 ∧ n > 10) ∧
    (segmentOf total n = "Regular" ↔ ¬(total > 1000 ∧ n > 10) ∧ total > 500) ∧
    (segmentOf total n = "New" ↔ ¬(total > 1000 ∧ n > 10) ∧ ¬total > 500) ∧
    (generate_recommendations (segmentOf total n)).length = 3 := by
  by_cases h1 : total > 1000 ∧ n > 10
  · simp [segmentOf, h1, generate_recommendations]
  · by_cases h2 : total > 500
    · simp [segmentOf, h1, h2, generate_recommendations]
    · have h1000 : ¬total > 1000 := by
        intro hc
        exact h2 (by linarith)
      simp [segmentOf, h1, h2, generate_recommendations]

/-- C9: for every user object that `process_user_data` processes
successfully, the assigned segment is `VIP` exactly when the total
spent (sum of purchase `amount`s, defaulting to 0) exceeds 1000 and
the purchase count exceeds 10, `Regular` exactly when not VIP and the
total exceeds 500, and `New` otherwise; `recommendations` is the fixed
three-element list of that segment. -/
theorem c9_process_user_data_segments (u r : JVal) (h : process_user_data u = .ok r) :
    ∃ pv ps total,
      pyGetD u "purchases" (.arr []) = .ok pv ∧
      iterPurchases pv = .ok ps ∧
      totalSpent ps = .ok total ∧
      r.lookup "segment" = some (.str (segmentOf total ps.length)) ∧
      (segmentOf total ps.length = "VIP" ↔ total > 1000 ∧ ps.length > 10) ∧
      (segmentOf total ps.length = "Regular" ↔
        ¬(total > 1000 ∧ ps.length > 10) ∧ total > 500) ∧
      (segmentOf total ps.length = "New" ↔
        ¬(total > 1000 ∧ ps.length > 10) ∧ ¬total > 500) ∧
      r.lookup "recommendations" =
        some (.arr ((generate_recommendations (segmentOf total ps.length)).map .str)) ∧
      (generate_recommendations (segmentOf total ps.length)).length = 3 := by
  simp only [process_user_data] at h
  split at h
  · exact Except.noConfusion h
  next name hname =>
  split at h
  · exact Except.noConfusion h
  next age hage =>
  split at h
  · exact Except.noConfusion h
  next pv hpv =>
  split at h
  · exact Except.noConfusion h
  next ps hps =>
  split at h
  · exact Except.noConfusion h
  next total htot =>
  split at h
  · exact Except.noConfusion h
  next idv hid =>
  simp only [Except.ok.injEq] at h
  subst h
  obtain ⟨s1, s2, s3, s4⟩ := segmentOf_cases total ps.length
  exact ⟨pv, ps, total, hpv, hps, htot, by simp [JVal.lookup, List.lookup],
    s1, s2, s3, by simp [JVal.lookup, List.lookup], s4⟩

/-- Witness for C9 at a concrete user with one purchase of 600. -/
theorem c9_process_user_data_segments_witness :
    process_user_data (.obj [("purchases", .arr [.obj [("amount", .num 600)]])]) =
      .ok (.obj [("user_id", .null), ("name", .str "Unknown"), ("segment", .str "Regular"),
        ("metrics", .obj [("total_purchases", .num 1), ("total_spent", .num 600),
          ("avg_purchase_value", .num 600)]),
        ("recommendations", .arr [.str "Popular Items", .str "Seasonal Deals",
          .str "Member Benefits"])]) ∧
    ∃ pv ps total,
      pyGetD (.obj [("purchases", .arr [.obj [("amount", .num 600)]])]) "purchases"
        (.arr []) = .ok pv ∧
      iterPurchases pv = .ok ps ∧
      totalSpent ps = .ok total ∧
      JVal.lookup (.obj [("user_id", .null), ("name", .str "Unknown"),
        ("segment", .str "Regular"),
        ("metrics", .obj [("total_purchases", .num 1), ("total_spent", .num 600),
          ("avg_purchase_value", .num 600)]),
        ("recommendations", .arr [.str "Popular Items", .str "Seasonal Deals",
          .str "Member Benefits"])]) "segment" = some (.str (segmentOf total ps.length)) ∧
      (segmentOf total ps.length = "VIP" ↔ total > 1000 ∧ ps.length > 10) ∧
      (segmentOf total ps.length = "Regular" ↔
        ¬(total > 1000 ∧ ps.length > 10) ∧ total > 500) ∧
      (segmentOf total ps.length = "New" ↔
        ¬(total > 1000 ∧ ps.length > 10) ∧ ¬total > 500) ∧
      JVal.lookup (.obj [("user_id", .null), ("name", .str "Unknown"),
        ("segment", .str "Regular"),
        ("metrics", .obj [("total_purchases", .num 1), ("total_spent", .num 600),
          ("avg_purchase_value", .num 600)]),
        ("recommendations", .arr [.str "Popular Items", .str "Seasonal Deals",
          .str "Member Benefits"])]) "recommendations" =
        some (.arr ((generate_recommendations (segmentOf total ps.length)).map .str)) ∧
      (generate_recommendations (segmentOf total ps.length)).length = 3 := by
  have hok : process_user_data (.obj [("purchases", .arr [.obj [("amount", .num 600)]])]) =
      .ok (.obj [("user_id", .null), ("name", .str "Unknown"), ("segment", .str "Regular"),
        ("metrics", .obj [("total_purchases", .num 1), ("total_spent", .num 600),
          ("avg_purchase_value", .num 600)]),
        ("recommendations", .arr [.str "Popular Items", .str "Seasonal Deals",
          .str "Member Benefits"])]) := by
    norm_num [process_user_data, pyGetD, iterPurchases, totalSpent, amountOf, segmentOf,
      round2, generate_recommendations, List.lookup]
    simp
  exact ⟨hok, c9_process_user_data_segments _ _ hok⟩

/-- A JSON object that binds a key is truthy. -/
theorem truthy_obj_of_lookup {fs : List (String × JVal)} {k : String} {x : JVal}
    (h : List.lookup k fs = some x) : (JVal.obj fs).truthy = true := by
  cases fs with
  | nil => simp [List.lookup] at h
  | cons hd tl => simp [JVal.truthy]

/-- C4: on a command-line argument that is not valid JSON
(`json.loads` raises with message `m`), each of hello.py,
quick_sentiment.py, process.py and predict.py prints a JSON object
with an `error` key and exits non-zero. -/
theorem c4_malformed_json_error_exit (m : String) (env : PredictEnv) :
    (errKeyed (hello_main (some (.error m))).stdout ∧
      (hello_main (some (.error m))).exitCode ≠ 0) ∧
    (errKeyed (quick_sentiment_main (some (.error m))).stdout ∧
      (quick_sentiment_main (some (.error m))).exitCode ≠ 0) ∧
    (errKeyed (process_main (some (.error m))).stdout ∧
      (process_main (some (.error m))).exitCode ≠ 0) ∧
    (errKeyed (predict_main (some (.error m)) env).1.stdout ∧
      (predict_main (some (.error m)) env).1.exitCode ≠ 0) :=
  ⟨⟨errKeyed_errDoc _, by simp [hello_main]⟩,
   ⟨errKeyed_errDoc _, by simp [quick_sentiment_main]⟩,
   ⟨errKeyed_errDocTyped _, by simp [process_main]⟩,
   ⟨errKeyed_errDocTyped _, by simp [predict_main]⟩⟩

/-- C5: an input whose JSON object has no `text` key, or whose `text`
is the empty string, makes predict.py fail (exit 1) without reaching
`load_model` and without calling transform/predict, and makes the
Flask `POST /predict` view answer 400 without calling
transform/predict. -/
theorem c5_missing_text_rejected_before_model (fs : List (String × JVal))
    (env : PredictEnv) (fenv : FlaskEnv)
    (h : List.lookup "text" fs = none ∨ List.lookup "text" fs = some (.str "")) :
    ((predict_main (some (.ok (.obj fs))) env).2.1 = false ∧
     (predict_main (some (.ok (.obj fs))) env).2.2 = false ∧
     (predict_main (some (.ok (.obj fs))) env).1.exitCode = 1) ∧
    ((predictRoute (.ok (.obj fs)) fenv).1.status = 400 ∧
     (predictRoute (.ok (.obj fs)) fenv).2 = false) := by
  rcases h with h | h
  · constructor
    · simp [predict_main, pyGetD, h, JVal.truthy]
    · by_cases hfs : (JVal.obj fs).truthy
      · simp [predictRoute, hfs, pyContains, h]
      · simp [predictRoute, hfs]
  · have htr : (JVal.obj fs).truthy = true := truthy_obj_of_lookup h
    constructor
    · simp [predict_main, pyGetD, h, JVal.truthy]
    · simp only [predictRoute, htr, pyContains, pyIndex, h, JVal.truthy]
      split <;> simp

/-- Witness for C5: the concrete input `{}` (no `text` key). -/
theorem c5_missing_text_rejected_before_model_witness :
    (List.lookup "text" ([] : List (String × JVal)) = none ∨
     List.lookup "text" ([] : List (String × JVal)) = some (.str "")) ∧
    (((predict_main (some (.ok (.obj [])))
        ⟨true, fun _ => .error ⟨"E", "unused"⟩⟩).2.1 = false ∧
      (predict_main (some (.ok (.obj [])))
        ⟨true, fun _ => .error ⟨"E", "unused"⟩⟩).2.2 = false ∧
      (predict_main (some (.ok (.obj [])))
        ⟨true, fun _ => .error ⟨"E", "unused"⟩⟩).1.exitCode = 1) ∧
     ((predictRoute (.ok (.obj []))
        ⟨fun _ => .error ⟨"E", "unused"⟩⟩).1.status = 400 ∧
      (predictRoute (.ok (.obj []))
        ⟨fun _ => .error ⟨"E", "unused"⟩⟩).2 = false)) :=
  ⟨Or.inl rfl,
   c5_missing_text_rejected_before_model [] ⟨true, fun _ => .error ⟨"E", "unused"⟩⟩
     ⟨fun _ => .error ⟨"E", "unused"⟩⟩ (Or.inl rfl)⟩

/-- A non-empty string is truthy. -/
theorem truthy_str_ne (s : String) (h : s ≠ "") : (JVal.str s).truthy = true := by
  simp [JVal.truthy, h]

/-- C7: the Flask server answers 400 with an error-keyed JSON body to
every `POST /predict` whose object body has no `text` key, a falsy
`text`, or a whitespace-only `text` (the validations the view
performs), and to every `POST /predict/batch` whose object body has no
`texts` key or a non-array `texts`; and it answers 500 with an
error-keyed JSON body whenever the sklearn pipeline raises during
prediction, on either endpoint. -/
theorem c7_flask_error_statuses :
    (∀ (fenv : FlaskEnv) (fs : List (String × JVal)),
       (List.lookup "text" fs = none ∨
        (∃ tv, List.lookup "text" fs = some tv ∧ tv.truthy = false) ∨
        (∃ s, List.lookup "text" fs = some (.str s) ∧ blankStr s = true)) →
       (predictRoute (.ok (.obj fs)) fenv).1.status = 400 ∧
       errKeyed (some (predictRoute (.ok (.obj fs)) fenv).1.body)) ∧
    (∀ (fenv : FlaskEnv) (fs : List (String × JVal)),
       (List.lookup "texts" fs = none ∨
        (∃ tv, List.lookup "texts" fs = some tv ∧ ∀ xs, tv ≠ .arr xs)) →
       (predictBatchRoute (.ok (.obj fs)) fenv).1.status = 400 ∧
       errKeyed (some (predictBatchRoute (.ok (.obj fs)) fenv).1.body)) ∧
    (∀ (fenv : FlaskEnv) (fs : List (String × JVal)) (s : String) (e : PyErr),
       List.lookup "text" fs = some (.str s) → s ≠ "" → blankStr s = false →
       fenv.pipe s = .error e →
       (predictRoute (.ok (.obj fs)) fenv).1.status = 500 ∧
       errKeyed (some (predictRoute (.ok (.obj fs)) fenv).1.body)) ∧
    (∀ (fenv : FlaskEnv) (fs : List (String × JVal)) (xs : List JVal) (e : PyErr),
       List.lookup "texts" fs = some (.arr xs) → batchPipe fenv xs = .error e →
       (predictBatchRoute (.ok (.obj fs)) fenv).1.status = 500 ∧
       errKeyed (some (predictBatchRoute (.ok (.obj fs)) fenv).1.body)) := by
  refine ⟨?_, ?_, ?_, ?_⟩
  · intro fenv fs h
    by_cases hfs : (JVal.obj fs).truthy = true
    · rcases h with h | ⟨tv, h, htv⟩ | ⟨s, h, hs⟩
      · constructor <;>
          simp only [predictRoute, hfs, Bool.not_true, Bool.false_eq_true, if_false,
            pyContains, h, Option.isSome_none]
        · rfl
        · exact errKeyed_errDoc _
      · constructor <;>
          simp only [predictRoute, hfs, Bool.not_true, Bool.false_eq_true, if_false,
            pyContains, h, pyIndex, Option.isSome_some, htv]
        · rfl
        · exact errKeyed_errDoc _
      · by_cases hse : s = ""
        · have hf : (JVal.str s).truthy = false := by
            subst hse
            rfl
          constructor <;>
            simp only [predictRoute, hfs, Bool.not_true, Bool.false_eq_true, if_false,
              pyContains, h, pyIndex, Option.isSome_some, hf]
          · rfl
          · exact errKeyed_errDoc _
        · have htt := truthy_str_ne s hse
          constructor <;>
            simp only [predictRoute, hfs, Bool.not_true, Bool.false_eq_true, if_false,
              pyContains, h, pyIndex, Option.isSome_some, htt, hs, if_true, if_pos rfl]
          · rfl
          · exact errKeyed_errDoc _
    · constructor <;>
        simp only [predictRoute, eq_false_of_ne_true hfs, Bool.not_false, if_pos rfl]
      · rfl
      · exact errKeyed_errDoc _
  · intro fenv fs h
    by_cases hfs : (JVal.obj fs).truthy = true
    · rcases h with h | ⟨tv, h, htv⟩
      · constructor <;>
          simp only [predictBatchRoute, hfs, Bool.not_true, Bool.false_eq_true, if_false,
            pyContains, h, Option.isSome_none]
        · rfl
        · exact errKeyed_errDoc _
      · cases tv with
        | arr xs => exact absurd rfl (htv xs)
        | null =>
            constructor <;>
              simp only [predictBatchRoute, hfs, Bool.not_true, Bool.false_eq_true,
                if_false, pyContains, h, pyIndex, Option.isSome_some]
            · rfl
            · exact errKeyed_errDoc _
        | bool b =>
            constructor <;>
              simp only [predictBatchRoute, hfs, Bool.not_true, Bool.false_eq_true,
                if_false, pyContains, h, pyIndex, Option.isSome_some]
            · rfl
            · exact errKeyed_errDoc _
        | num q =>
            constructor <;>
              simp only [predictBatchRoute, hfs, Bool.not_true, Bool.false_eq_true,
                if_false, pyContains, h, pyIndex, Option.isSome_some]
            · rfl
            · exact errKeyed_errDoc _
        | str s =>
            constructor <;>
              simp only [predictBatchRoute, hfs, Bool.not_true, Bool.false_eq_true,
                if_false, pyContains, h, pyIndex, Option.isSome_some]
            · rfl
            · exact errKeyed_errDoc _
        | obj gs =>
            constructor <;>
              simp only [predictBatchRoute, hfs, Bool.not_true, Bool.false_eq_true,
                if_false, pyContains, h, pyIndex, Option.isSome_some]
            · rfl
            · exact errKeyed_errDoc _
    · constructor <;>
        simp only [predictBatchRoute, eq_false_of_ne_true hfs, Bool.not_false, if_pos rfl]
      · rfl
      · exact errKeyed_errDoc _
  · intro fenv fs s e h hse hbl hp
    have htr := truthy_obj_of_lookup h
    have htt := truthy_str_ne s hse
    constructor <;>
      simp only [predictRoute, htr, Bool.not_true, Bool.false_eq_true, if_false,
        pyContains, h, pyIndex, Option.isSome_some, htt, hbl, hp]
    · rfl
    · exact errKeyed_errDoc _
  · intro fenv fs xs e h hp
    have htr := truthy_obj_of_lookup h
    constructor <;>
      simp only [predictBatchRoute, htr, Bool.not_true, Bool.false_eq_true, if_false,
        pyContains, h, pyIndex, Option.isSome_some, hp]
    · rfl
    · exact errKeyed_errDoc _

/-- Witness for C7: `POST /predict` with body `{}` is answered 400
with an error body. -/
theorem c7_flask_error_statuses_witness :
    (List.lookup "text" ([] : List (String × JVal)) = none ∨
     (∃ tv, List.lookup "text" ([] : List (String × JVal)) = some tv ∧ tv.truthy = false) ∨
     (∃ s, List.lookup "text" ([] : List (String × JVal)) = some (.str s) ∧
        blankStr s = true)) ∧
    ((predictRoute (.ok (.obj [])) ⟨fun _ => .error ⟨"E", "unused"⟩⟩).1.status = 400 ∧
     errKeyed (some (predictRoute (.ok (.obj []))
       ⟨fun _ => .error ⟨"E", "unused"⟩⟩).1.body)) :=
  ⟨Or.inl rfl,
   c7_flask_error_statuses.1 ⟨fun _ => .error ⟨"E", "unused"⟩⟩ [] (Or.inl rfl)⟩

/-- C2: batch and single-item prediction agree on a shared input: for
every valid text, `POST /predict` on `{"text": t}` and
`POST /predict/batch` on `{"texts": [t]}` return the same sentiment
and confidence (both 200, the batch answer being the one-element
predictions list for the same pipeline answer); and process.py maps a
one-element array `[u]` to exactly `[process_user_data(u)]`. -/
theorem c2_batch_single_agree :
    (∀ (fenv : FlaskEnv) (s : String), s ≠ "" → blankStr s = false →
       ∀ p, fenv.pipe s = .ok p →
         (predictRoute (.ok (.obj [("text", .str s)])) fenv).1.status = 200 ∧
         (predictRoute (.ok (.obj [("text", .str s)])) fenv).1.body.lookup "sentiment" =
           some (.str p.sentiment) ∧
         (predictRoute (.ok (.obj [("text", .str s)])) fenv).1.body.lookup "confidence" =
           some (.num p.confidence) ∧
         (predictBatchRoute (.ok (.obj [("texts", .arr [.str s])])) fenv).1.status = 200 ∧
         (predictBatchRoute (.ok (.obj [("texts", .arr [.str s])])) fenv).1.body.lookup
           "predictions" = some (.arr [batchItemBody s p]) ∧
         (batchItemBody s p).lookup "sentiment" = some (.str p.sentiment) ∧
         (batchItemBody s p).lookup "confidence" = some (.num p.confidence)) ∧
    (∀ u r, process_user_data u = .ok r →
       process_main (some (.ok (.arr [u]))) = ⟨some (.arr [r]), 0⟩) := by
  constructor
  · intro fenv s hse hbl p hp
    have htt := truthy_str_ne s hse
    refine ⟨?_, ?_, ?_, ?_, ?_, ?_, ?_⟩ <;>
      simp [predictRoute, predictBatchRoute, pyContains, pyIndex, List.lookup, htt, hbl,
        hp, batchPipe, predictBody, predDoc, batchItemBody, JVal.lookup, JVal.truthy, hse]
  · intro u r h
    simp [process_main, processBatch, h]

/-- Witness for C2: the text `good` under a pipeline answering
(`positive`, 0.9). -/
theorem c2_batch_single_agree_witness :
    ("good" : String) ≠ "" ∧ blankStr "good" = false ∧
    (⟨fun _ => .ok ⟨"positive", 9/10, []⟩⟩ : FlaskEnv).pipe "good" =
      .ok ⟨"positive", 9/10, []⟩ ∧
    ((predictRoute (.ok (.obj [("text", .str "good")]))
        ⟨fun _ => .ok ⟨"positive", 9/10, []⟩⟩).1.status = 200 ∧
     (predictRoute (.ok (.obj [("text", .str "good")]))
        ⟨fun _ => .ok ⟨"positive", 9/10, []⟩⟩).1.body.lookup "sentiment" =
       some (.str (⟨"positive", 9/10, []⟩ : SkPred).sentiment) ∧
     (predictRoute (.ok (.obj [("text", .str "good")]))
        ⟨fun _ => .ok ⟨"positive", 9/10, []⟩⟩).1.body.lookup "confidence" =
       some (.num (⟨"positive", 9/10, []⟩ : SkPred).confidence) ∧
     (predictBatchRoute (.ok (.obj [("texts", .arr [.str "good"])]))
        ⟨fun _ => .ok ⟨"positive", 9/10, []⟩⟩).1.status = 200 ∧
     (predictBatchRoute (.ok (.obj [("texts", .arr [.str "good"])]))
        ⟨fun _ => .ok ⟨"positive", 9/10, []⟩⟩).1.body.lookup "predictions" =
       some (.arr [batchItemBody "good" ⟨"positive", 9/10, []⟩]) ∧
     (batchItemBody "good" (⟨"positive", 9/10, []⟩ : SkPred)).lookup "sentiment" =
       some (.str (⟨"positive", 9/10, []⟩ : SkPred).sentiment) ∧
     (batchItemBody "good" (⟨"positive", 9/10, []⟩ : SkPred)).lookup "confidence" =
       some (.num (⟨"positive", 9/10, []⟩ : SkPred).confidence)) :=
  ⟨by decide, by decide, rfl,
   c2_batch_single_agree.1 ⟨fun _ => .ok ⟨"positive", 9/10, []⟩⟩ "good" (by decide) (by decide)
     ⟨"positive", 9/10, []⟩ rfl⟩

/-- Keys `result:<id>` and `task:<id>` never collide. -/
theorem task_result_key_ne (s : String) : ("result:" ++ s) ≠ ("task:" ++ s) := by
  intro hcontr
  have hlen := congrArg String.length hcontr
  simp only [String.length_append] at hlen
  exact absurd (Nat.add_right_cancel hlen) (by decide)


/-- C3 amended: within the iteration that pops a well-formed task
(`id` and `type` present), whatever the incoming locals, the worker
first writes the record with status `processing` and a `started_at`
timestamp; on success the only later task-record write has status
`completed` with `completed_at`, on a processing error it has status
`failed` with the error message; and no operation pushes back onto a
queue.  (The across-iteration regression excluded here is exhibited by
the counterexample.) -/
theorem c3_amended_iteration_progression (st : WorkerState) (task : JVal)
    (now1 now2 : Nat) (env : WorkerEnv) (idV tyV : JVal)
    (hid : pyIndex task "id" = .ok idV) (hty : pyIndex task "type" = .ok tyV) :
    ∃ w1,
      (workerStep st (.ok task) now1 now2 env).1.head? =
        some (.setex ("task:" ++ pyStr idV) 3600 w1) ∧
      w1.lookup "status" = some (.str "processing") ∧
      w1.lookup "started_at" = some (.num now1) ∧
      (∀ r, process_task task env = .ok r →
        ∃ w2, taskWrites (workerStep st (.ok task) now1 now2 env).1
            ("task:" ++ pyStr idV) = [w1, w2] ∧
          w2.lookup "status" = some (.str "completed") ∧
          w2.lookup "completed_at" = some (.num now2)) ∧
      (∀ e, process_task task env = .error e →
        ∃ w2, taskWrites (workerStep st (.ok task) now1 now2 env).1
            ("task:" ++ pyStr idV) = [w1, w2] ∧
          w2.lookup "status" = some (.str "failed") ∧
          w2.lookup "error" = some (.str e.msg)) ∧
      (∀ op ∈ (workerStep st (.ok task) now1 now2 env).1, op.isPush = false) := by
  cases task with
  | null => exact absurd hid (by simp [pyIndex])
  | bool b => exact absurd hid (by simp [pyIndex])
  | num q => exact absurd hid (by simp [pyIndex])
  | str s => exact absurd hid (by simp [pyIndex])
  | arr xs => exact absurd hid (by simp [pyIndex])
  | obj fs =>
    refine ⟨setKey (setKey (.obj fs) "status" (.str "processing")) "started_at"
      (.num now1), ?_, ?_, ?_, ?_, ?_, ?_⟩
    · simp only [workerStep, hid, hty]
      cases hpt : process_task (.obj fs) env <;> simp
    · simp only [setKey, JVal.lookup]
      rw [lookup_updateKey_ne _ _ _ _ (by decide)]
      exact lookup_updateKey_self _ _ _
    · simp only [setKey, JVal.lookup]
      exact lookup_updateKey_self _ _ _
    · intro r hr
      refine ⟨setKey (setKey (setKey (setKey (.obj fs) "status" (.str "processing"))
        "started_at" (.num now1)) "status" (.str "completed")) "completed_at"
        (.num now2), ?_, ?_, ?_⟩
      · simp only [workerStep, hid, hty, hr, taskWrites, List.filterMap]
        simp [task_result_key_ne]
      · simp only [setKey, JVal.lookup]
        rw [lookup_updateKey_ne _ _ _ _ (by decide)]
        exact lookup_updateKey_self _ _ _
      · simp only [setKey, JVal.lookup]
        exact lookup_updateKey_self _ _ _
    · intro e he
      refine ⟨setKey (setKey (setKey (setKey (.obj fs) "status" (.str "processing"))
        "started_at" (.num now1)) "status" (.str "failed")) "error" (.str e.msg),
        ?_, ?_, ?_⟩
      · simp only [workerStep, hid, hty, he, taskWrites, List.filterMap]
        simp
      · simp only [setKey, JVal.lookup]
        rw [lookup_updateKey_ne _ _ _ _ (by decide)]
        exact lookup_updateKey_self _ _ _
      · simp only [setKey, JVal.lookup]
        exact lookup_updateKey_self _ _ _
    · intro op hop
      simp only [workerStep, hid, hty] at hop
      cases hpt : process_task (.obj fs) env with
      | ok r =>
          rw [hpt] at hop
          simp only [List.mem_cons, List.not_mem_nil, or_false] at hop
          rcases hop with rfl | rfl | rfl <;> rfl
      | error e =>
          rw [hpt] at hop
          simp only [List.mem_cons, List.not_mem_nil, or_false] at hop
          rcases hop with rfl | rfl <;> rfl

/-- C3 counterexample: the statuses written under `task:a` across two
loop iterations are processing, completed, then failed — after task
`a` completes, a pop whose `json.loads` fails fires the handler with
the stale `task_id`/`task` locals and rewrites the completed record as
`failed`, so a task record does not progress
`queued → processing → completed|failed` as claimed. -/
theorem c3_progression_counterexample :
    (taskWrites ((workerStep ⟨none, none⟩ (.ok (.obj [("id", .str "a"),
        ("type", .str "image_classification"), ("data", .null)])) 10 11
        ⟨false, fun _ => .error ⟨"E", "x"⟩⟩).1 ++
      (workerStep (workerStep ⟨none, none⟩ (.ok (.obj [("id", .str "a"),
        ("type", .str "image_classification"), ("data", .null)])) 10 11
        ⟨false, fun _ => .error ⟨"E", "x"⟩⟩).2 (.error "Expecting value") 20 21
        ⟨false, fun _ => .error ⟨"E", "x"⟩⟩).1)
      ("task:" ++ pyStr (.str "a"))).map (fun w => w.lookup "status") =
      [some (.str "processing"), some (.str "completed"), some (.str "failed")] := rfl

/-- C6 amended: every store operation the worker issues is a `setex`
with expiry 3600 under a key `task:<id>` or `result:<id>`, where
`<id>` is the id of the task being processed when the popped entry
parses and carries an `id`, and otherwise is the previous task's id
left in the handler's stale `task_id` local. -/
theorem c6_amended_writes_expiry_keys (st : WorkerState) (popped : Except String JVal)
    (now1 now2 : Nat) (env : WorkerEnv) :
    ∀ op ∈ (workerStep st popped now1 now2 env).1,
      ∃ key v, op = .setex key 3600 v ∧
        ((∃ task idV, popped = .ok task ∧ pyIndex task "id" = .ok idV ∧
            (key = "task:" ++ pyStr idV ∨ key = "result:" ++ pyStr idV)) ∨
         (∃ idV, st.taskId = some idV ∧ key = "task:" ++ pyStr idV)) := by
  intro op hop
  obtain ⟨tid, tvar⟩ := st
  cases popped with
  | error m =>
      cases tid with
      | none => simp [workerStep] at hop
      | some idV =>
          cases tvar with
          | none => simp [workerStep] at hop
          | some tv =>
              simp only [workerStep, List.mem_cons, List.not_mem_nil, or_false] at hop
              subst hop
              exact ⟨_, _, rfl, Or.inr ⟨idV, rfl, rfl⟩⟩
  | ok task =>
      cases hid : pyIndex task "id" with
      | error e =>
          cases tid with
          | none => simp [workerStep, hid] at hop
          | some idV =>
              simp only [workerStep, hid, List.mem_cons, List.not_mem_nil, or_false] at hop
              subst hop
              exact ⟨_, _, rfl, Or.inr ⟨idV, rfl, rfl⟩⟩
      | ok idV =>
          cases hty : pyIndex task "type" with
          | error e =>
              simp only [workerStep, hid, hty, List.mem_cons, List.not_mem_nil,
                or_false] at hop
              subst hop
              exact ⟨_, _, rfl, Or.inl ⟨task, idV, rfl, hid, Or.inl rfl⟩⟩
          | ok tyV =>
              cases hpt : process_task task env with
              | ok r =>
                  simp only [workerStep, hid, hty, hpt, List.mem_cons, List.not_mem_nil,
                    or_false] at hop
                  rcases hop with rfl | rfl | rfl
                  · exact ⟨_, _, rfl, Or.inl ⟨task, idV, rfl, hid, Or.inl rfl⟩⟩
                  · exact ⟨_, _, rfl, Or.inl ⟨task, idV, rfl, hid, Or.inr rfl⟩⟩
                  · exact ⟨_, _, rfl, Or.inl ⟨task, idV, rfl, hid, Or.inl rfl⟩⟩
              | error e =>
                  simp only [workerStep, hid, hty, hpt, List.mem_cons, List.not_mem_nil,
                    or_false] at hop
                  rcases hop with rfl | rfl
                  · exact ⟨_, _, rfl, Or.inl ⟨task, idV, rfl, hid, Or.inl rfl⟩⟩
                  · exact ⟨_, _, rfl, Or.inl ⟨task, idV, rfl, hid, Or.inl rfl⟩⟩

/-- C6 counterexample: after task `a` completes, popping a task that
parses but has no `id` makes the handler write the new record (which
contains no `id` at all) as `failed` under the stale key `task:a` —
the key does not name the id of the task being processed. -/
theorem c6_stale_key_counterexample :
    (workerStep (workerStep ⟨none, none⟩ (.ok (.obj [("id", .str "a"),
        ("type", .str "image_classification"), ("data", .null)])) 10 11
        ⟨false, fun _ => .error ⟨"E", "x"⟩⟩).2
      (.ok (.obj [("type", .str "x")])) 20 21
      ⟨false, fun _ => .error ⟨"E", "x"⟩⟩).1 =
      [.setex ("task:" ++ pyStr (.str "a")) 3600
        (setKey (setKey (.obj [("type", .str "x")]) "status" (.str "failed"))
          "error" (.str "id"))] ∧
    (JVal.obj [("type", .str "x")]).lookup "id" = none :=
  ⟨rfl, rfl⟩

/-- Witness for the amended C3: a concrete sentiment task processed
from fresh locals by a worker without a loaded model (the simulated
path succeeds). -/
theorem c3_amended_iteration_progression_witness :
    pyIndex (.obj [("id", .str "t1"), ("type", .str "sentiment_analysis"),
      ("data", .obj [("text", .str "hi")])]) "id" = .ok (.str "t1") ∧
    pyIndex (.obj [("id", .str "t1"), ("type", .str "sentiment_analysis"),
      ("data", .obj [("text", .str "hi")])]) "type" = .ok (.str "sentiment_analysis") ∧
    ∃ w1,
      (workerStep ⟨none, none⟩ (.ok (.obj [("id", .str "t1"),
        ("type", .str "sentiment_analysis"), ("data", .obj [("text", .str "hi")])]))
        10 20 ⟨false, fun _ => .error ⟨"E", "x"⟩⟩).1.head? =
        some (.setex ("task:" ++ pyStr (.str "t1")) 3600 w1) ∧
      w1.lookup "status" = some (.str "processing") ∧
      w1.lookup "started_at" = some (.num 10) ∧
      (∀ r, process_task (.obj [("id", .str "t1"), ("type", .str "sentiment_analysis"),
          ("data", .obj [("text", .str "hi")])]) ⟨false, fun _ => .error ⟨"E", "x"⟩⟩ =
          .ok r →
        ∃ w2, taskWrites (workerStep ⟨none, none⟩ (.ok (.obj [("id", .str "t1"),
            ("type", .str "sentiment_analysis"),
            ("data", .obj [("text", .str "hi")])])) 10 20
            ⟨false, fun _ => .error ⟨"E", "x"⟩⟩).1 ("task:" ++ pyStr (.str "t1")) =
            [w1, w2] ∧
          w2.lookup "status" = some (.str "completed") ∧
          w2.lookup "completed_at" = some (.num 20)) ∧
      (∀ e, process_task (.obj [("id", .str "t1"), ("type", .str "sentiment_analysis"),
          ("data", .obj [("text", .str "hi")])]) ⟨false, fun _ => .error ⟨"E", "x"⟩⟩ =
          .error e →
        ∃ w2, taskWrites (workerStep ⟨none, none⟩ (.ok (.obj [("id", .str "t1"),
            ("type", .str "sentiment_analysis"),
            ("data", .obj [("text", .str "hi")])])) 10 20
            ⟨false, fun _ => .error ⟨"E", "x"⟩⟩).1 ("task:" ++ pyStr (.str "t1")) =
            [w1, w2] ∧
          w2.lookup "status" = some (.str "failed") ∧
          w2.lookup "error" = some (.str e.msg)) ∧
      (∀ op ∈ (workerStep ⟨none, none⟩ (.ok (.obj [("id", .str "t1"),
          ("type", .str "sentiment_analysis"),
          ("data", .obj [("text", .str "hi")])])) 10 20
          ⟨false, fun _ => .error ⟨"E", "x"⟩⟩).1, op.isPush = false) :=
  ⟨rfl, rfl,
   c3_amended_iteration_progression ⟨none, none⟩ (.obj [("id", .str "t1"),
     ("type", .str "sentiment_analysis"), ("data", .obj [("text", .str "hi")])]) 10 20
     ⟨false, fun _ => .error ⟨"E", "x"⟩⟩ (.str "t1") (.str "sentiment_analysis") rfl rfl⟩

/-- Witness for the amended C6: the first write of a concrete
iteration from fresh locals is a `setex` with expiry 3600 under the
processed task's own key. -/
theorem c6_amended_writes_expiry_keys_witness :
    (RedisOp.setex ("task:" ++ pyStr (.str "t1")) 3600
      (setKey (setKey (.obj [("id", .str "t1"), ("type", .str "sentiment_analysis"),
        ("data", .obj [("text", .str "hi")])]) "status" (.str "processing"))
        "started_at" (.num 10)) ∈
      (workerStep ⟨none, none⟩ (.ok (.obj [("id", .str "t1"),
        ("type", .str "sentiment_analysis"), ("data", .obj [("text", .str "hi")])]))
        10 20 ⟨false, fun _ => .error ⟨"E", "x"⟩⟩).1) ∧
    ∃ key v,
      RedisOp.setex ("task:" ++ pyStr (.str "t1")) 3600
        (setKey (setKey (.obj [("id", .str "t1"), ("type", .str "sentiment_analysis"),
          ("data", .obj [("text", .str "hi")])]) "status" (.str "processing"))
          "started_at" (.num 10)) = .setex key 3600 v ∧
      ((∃ task idV, (.ok (.obj [("id", .str "t1"), ("type", .str "sentiment_analysis"),
          ("data", .obj [("text", .str "hi")])]) : Except String JVal) = .ok task ∧
          pyIndex task "id" = .ok idV ∧
          (key = "task:" ++ pyStr idV ∨ key = "result:" ++ pyStr idV)) ∨
       (∃ idV, (⟨none, none⟩ : WorkerState).taskId = some idV ∧
          key = "task:" ++ pyStr idV)) :=
  ⟨List.mem_cons_self _ _,
   c6_amended_writes_expiry_keys ⟨none, none⟩ (.ok (.obj [("id", .str "t1"),
     ("type", .str "sentiment_analysis"), ("data", .obj [("text", .str "hi")])])) 10 20
     ⟨false, fun _ => .error ⟨"E", "x"⟩⟩ _ (List.mem_cons_self _ _)⟩

/-- C1 counterexample: detect_opencv.py on an image path that fails to
load prints a JSON object that reports the failure (an `error` key,
`success: false`) but exits with code 0 — the `__main__` block has no
`sys.exit(1)` after a failed detection — contradicting the claim that
every failing run exits non-zero. -/
theorem c1_uniform_error_exit_counterexample :
    (detect_opencv_main (some "missing.jpg") none none ⟨false, true, []⟩).stdout =
      some (.obj [("success", .bool false),
        ("error", .str ("Failed to load image: " ++ "missing.jpg"))]) ∧
    errKeyed (detect_opencv_main (some "missing.jpg") none none ⟨false, true, []⟩).stdout ∧
    (detect_opencv_main (some "missing.jpg") none none ⟨false, true, []⟩).exitCode = 0 :=
  ⟨rfl, ⟨_, rfl, rfl⟩, rfl⟩

/-- C1 amended: quick_sentiment.py, process.py and predict.py catch
all exceptions at top level, so every non-zero exit comes with a JSON
object carrying an `error` key on stdout; hello.py does so for its
missing-argument and JSON-decode-error paths (its only handlers — any
other exception escapes as a traceback); detect_opencv.py, once its
optional arguments convert, reports every detection failure as a JSON
object with an `error` key but exits with code 0, while a
`float`/`int` conversion failure on an optional argument kills it with
a traceback (no JSON) and exit code 1. -/
theorem c1_amended_error_reporting :
    (∀ input, (quick_sentiment_main input).exitCode ≠ 0 →
       errKeyed (quick_sentiment_main input).stdout) ∧
    (∀ input, (process_main input).exitCode ≠ 0 →
       errKeyed (process_main input).stdout) ∧
    (∀ input env, (predict_main input env).1.exitCode ≠ 0 →
       errKeyed (predict_main input env).1.stdout) ∧
    (errKeyed (hello_main none).stdout ∧ (hello_main none).exitCode ≠ 0) ∧
    (∀ m, errKeyed (hello_main (some (.error m))).stdout ∧
       (hello_main (some (.error m))).exitCode ≠ 0) ∧
    (∀ path scaleArg neighborsArg env,
       convCrashes scaleArg = false → convCrashes neighborsArg = false →
       env.imageLoaded = false ∨ env.cascadeLoaded = false →
       errKeyed (detect_opencv_main (some path) scaleArg neighborsArg env).stdout ∧
       (detect_opencv_main (some path) scaleArg neighborsArg env).exitCode = 0) ∧
    (∀ path scaleArg neighborsArg env,
       convCrashes scaleArg = true ∨ convCrashes neighborsArg = true →
       (detect_opencv_main (some path) scaleArg neighborsArg env).stdout = none ∧
       (detect_opencv_main (some path) scaleArg neighborsArg env).exitCode = 1) := by
  refine ⟨?_, ?_, ?_, ⟨errKeyed_errDoc _, by simp [hello_main]⟩, ?_, ?_, ?_⟩
  · intro input h
    rcases input with _ | mv
    · exact errKeyed_errDoc _
    rcases mv with m | v
    · exact errKeyed_errDoc _
    cases hc : pyContains v "text" with
    | error e => simp only [quick_sentiment_main, hc]; exact errKeyed_errDoc _
    | ok b =>
      cases b with
      | false => simp only [quick_sentiment_main, hc]; exact errKeyed_errDoc _
      | true =>
        cases hi : pyIndex v "text" with
        | error e => simp only [quick_sentiment_main, hc, hi]; exact errKeyed_errDoc _
        | ok tv =>
          by_cases htv : tv.truthy = true
          · cases tv with
            | str s =>
              by_cases hbl : blankStr s = true
              · simp only [quick_sentiment_main, hc, hi, htv, hbl, Bool.not_true,
                  Bool.false_eq_true, if_false, if_true]
                exact errKeyed_errDoc _
              · simp only [quick_sentiment_main, hc, hi, htv, Bool.not_true,
                  Bool.false_eq_true, if_false, eq_false_of_ne_true hbl] at h
                exact absurd rfl h
            | null =>
              simp only [quick_sentiment_main, hc, hi, htv, Bool.not_true,
                Bool.false_eq_true, if_false]
              exact errKeyed_errDoc _
            | bool b =>
              simp only [quick_sentiment_main, hc, hi, htv, Bool.not_true,
                Bool.false_eq_true, if_false]
              exact errKeyed_errDoc _
            | num q =>
              simp only [quick_sentiment_main, hc, hi, htv, Bool.not_true,
                Bool.false_eq_true, if_false]
              exact errKeyed_errDoc _
            | arr xs =>
              simp only [quick_sentiment_main, hc, hi, htv, Bool.not_true,
                Bool.false_eq_true, if_false]
              exact errKeyed_errDoc _
            | obj gs =>
              simp only [quick_sentiment_main, hc, hi, htv, Bool.not_true,
                Bool.false_eq_true, if_false]
              exact errKeyed_errDoc _
          · simp only [quick_sentiment_main, hc, hi, eq_false_of_ne_true htv,
              Bool.not_false, if_pos rfl]
            exact errKeyed_errDoc _
  · intro input h
    rcases input with _ | mv
    · exact errKeyed_errDocTyped _
    rcases mv with m | v
    · exact errKeyed_errDocTyped _
    cases v with
    | obj fs =>
      cases hp : process_user_data (.obj fs) with
      | ok r => simp [process_main, hp] at h
      | error e => simp only [process_main, hp]; exact errKeyed_errDocTyped _
    | arr us =>
      cases hp : processBatch us with
      | ok rs => simp [process_main, hp] at h
      | error e => simp only [process_main, hp]; exact errKeyed_errDocTyped _
    | null => exact errKeyed_errDocTyped _
    | bool b => exact errKeyed_errDocTyped _
    | num q => exact errKeyed_errDocTyped _
    | str s => exact errKeyed_errDocTyped _
  · intro input env h
    rcases input with _ | mv
    · exact errKeyed_errDocTyped _
    rcases mv with m | v
    · exact errKeyed_errDocTyped _
    cases hg : pyGetD v "text" (.str "") with
    | error e => simp only [predict_main, hg]; exact errKeyed_errDocTyped _
    | ok tv =>
      by_cases htv : tv.truthy = true
      · by_cases hm : env.modelExists = true
        · cases tv with
          | str s =>
            cases hp : env.pipe s with
            | ok p =>
                simp only [predict_main, hg, htv, hm, Bool.not_true, Bool.false_eq_true,
                  if_false, if_true, hp] at h
                exact absurd rfl h
            | error e =>
                simp only [predict_main, hg, htv, hm, Bool.not_true, Bool.false_eq_true,
                  if_false, hp]
                exact errKeyed_errDocTyped _
          | null =>
            simp only [predict_main, hg, htv, hm, Bool.not_true, Bool.false_eq_true,
              if_false]
            exact errKeyed_errDocTyped _
          | bool b =>
            simp only [predict_main, hg, htv, hm, Bool.not_true, Bool.false_eq_true,
              if_false]
            exact errKeyed_errDocTyped _
          | num q =>
            simp only [predict_main, hg, htv, hm, Bool.not_true, Bool.false_eq_true,
              if_false]
            exact errKeyed_errDocTyped _
          | arr xs =>
            simp only [predict_main, hg, htv, hm, Bool.not_true, Bool.false_eq_true,
              if_false]
            exact errKeyed_errDocTyped _
          | obj gs =>
            simp only [predict_main, hg, htv, hm, Bool.not_true, Bool.false_eq_true,
              if_false]
            exact errKeyed_errDocTyped _
        · simp only [predict_main, hg, htv, eq_false_of_ne_true hm, Bool.not_true,
            Bool.false_eq_true, if_false, Bool.not_false, if_pos rfl]
          exact errKeyed_errDocTyped _
      · simp only [predict_main, hg, eq_false_of_ne_true htv, Bool.not_false, if_pos rfl]
        exact errKeyed_errDocTyped _
  · intro m
    exact ⟨errKeyed_errDoc _, by simp [hello_main]⟩
  · intro path scaleArg neighborsArg env hsc hnb h
    rcases h with h | h
    · constructor
      · simp only [detect_opencv_main, detect_faces, hsc, hnb, h, Bool.false_eq_true,
          if_false, Bool.not_false, if_pos rfl]
        exact ⟨_, rfl, rfl⟩
      · simp [detect_opencv_main, hsc, hnb]
    · by_cases himg : env.imageLoaded = true
      · constructor
        · simp only [detect_opencv_main, detect_faces, hsc, hnb, himg, h,
            Bool.false_eq_true, if_false, Bool.not_true, Bool.not_false, if_pos rfl]
          exact ⟨_, rfl, rfl⟩
        · simp [detect_opencv_main, hsc, hnb]
      · constructor
        · simp only [detect_opencv_main, detect_faces, hsc, hnb,
            eq_false_of_ne_true himg, Bool.false_eq_true, if_false, Bool.not_false,
            if_pos rfl]
          exact ⟨_, rfl, rfl⟩
        · simp [detect_opencv_main, hsc, hnb]
  · intro path scaleArg neighborsArg env h
    cases hsc : convCrashes scaleArg with
    | true => constructor <;> simp [detect_opencv_main, hsc]
    | false =>
        rcases h with h | h
        · rw [hsc] at h
          exact absurd h (by simp)
        · constructor <;> simp [detect_opencv_main, hsc, h]

/-- Witness for the amended C1: quick_sentiment.py without arguments
exits 1 with an error-keyed JSON object. -/
theorem c1_amended_error_reporting_witness :
    (quick_sentiment_main none).exitCode ≠ 0 ∧
    errKeyed (quick_sentiment_main none).stdout :=
  ⟨by decide, c1_amended_error_reporting.1 none (by decide)⟩
